import Mathlib

/-!
Verification of the linear wavelength calibration and simulator entry point
of the fridadrp package (files
src/fridadrp/processing/linear_wavelength_calibration.py and
src/fridadrp/tools/frida_ifu_simulator.py).

Astropy quantities are embedded shallowly: a physical unit is a rational
scale factor together with integer exponents for the two base dimensions
that occur in this code (length and pixel), and a quantity is a rational
value tagged with a unit.  Python values flowing through the decorated
functions are either bare numbers (no unit attribute) or quantities.
Fallible Python code is embedded as Except String.
-/

deriving instance DecidableEq for Except

namespace Fridadrp

/-- A physical unit: a rational scale relative to the base units
(metre for length, pixel for the pixel dimension) and integer exponents
for the two base dimensions occurring in the calibration code. -/
structure PhysUnit where
  scale : ℚ
  dimLen : ℤ
  dimPix : ℤ
  deriving DecidableEq, Repr

/-- astropy u.pix -/
def upix : PhysUnit := ⟨1, 0, 1⟩

/-- astropy u.dimensionless_unscaled -/
def udimensionless : PhysUnit := ⟨1, 0, 0⟩

/-- astropy u.micrometer (scale relative to the metre) -/
def umicrometer : PhysUnit := ⟨1 / 1000000, 1, 0⟩

/-- astropy u.nanometer -/
def unanometer : PhysUnit := ⟨1 / 1000000000, 1, 0⟩

/-- Product of units (astropy unit multiplication). -/
def PhysUnit.mul (a b : PhysUnit) : PhysUnit :=
  ⟨a.scale * b.scale, a.dimLen + b.dimLen, a.dimPix + b.dimPix⟩

/-- Quotient of units (astropy unit division). -/
def PhysUnit.div (a b : PhysUnit) : PhysUnit :=
  ⟨a.scale / b.scale, a.dimLen - b.dimLen, a.dimPix - b.dimPix⟩

/-- astropy u.micrometer / u.pix, the unit of cdelt1_wavecal. -/
def umicrometer_per_pix : PhysUnit := umicrometer.div upix

/-- Two units are convertible when they share the same base-dimension
exponents (astropy physical-type compatibility). -/
def PhysUnit.compatible (a b : PhysUnit) : Bool :=
  a.dimLen == b.dimLen && a.dimPix == b.dimPix

/-- An astropy Quantity: a numeric value tagged with a unit. -/
structure Quantity where
  value : ℚ
  unit : PhysUnit
  deriving DecidableEq, Repr

/-- astropy Quantity equality: units must be convertible and the values,
brought to a common scale, equal; incompatible units compare unequal. -/
def Quantity.qeq (a b : Quantity) : Bool :=
  a.unit.compatible b.unit && a.value * a.unit.scale == b.value * b.unit.scale

/-- astropy Quantity.to: convert to a target unit, failing on
incompatible dimensions. -/
def Quantity.to (q : Quantity) (target : PhysUnit) : Except String Quantity :=
  if q.unit.compatible target then
    .ok ⟨q.value * q.unit.scale / target.scale, target⟩
  else
    .error "UnitConversionError"

/-- A Python value reaching the calibration code: either a bare number
(no unit attribute) or an astropy Quantity. -/
inductive PyVal where
  | raw (v : ℚ)
  | qty (q : Quantity)
  deriving DecidableEq, Repr

/-- Python == between such values: bare numbers compare numerically,
quantities compare by Quantity equality, and a bare number compares to a
quantity as a dimensionless quantity (astropy semantics). -/
def pyEq : PyVal → PyVal → Bool
  | .raw a, .raw b => a == b
  | .qty a, .qty b => a.qeq b
  | .raw a, .qty b => Quantity.qeq ⟨a, udimensionless⟩ b
  | .qty a, .raw b => a.qeq ⟨b, udimensionless⟩

/-- Python/astropy addition.  Quantity + Quantity converts the right
operand to the unit of the left operand, failing on incompatible dimensions;
a bare number mixed with a quantity is treated as dimensionless. -/
def pyAdd : PyVal → PyVal → Except String PyVal
  | .raw a, .raw b => .ok (.raw (a + b))
  | .qty a, .qty b =>
      if a.unit.compatible b.unit then
        .ok (.qty ⟨a.value + b.value * b.unit.scale / a.unit.scale, a.unit⟩)
      else
        .error "UnitConversionError: incompatible units in addition"
  | .qty a, .raw b =>
      if a.unit.compatible udimensionless then
        .ok (.qty ⟨a.value + b / a.unit.scale, a.unit⟩)
      else
        .error "UnitConversionError: incompatible units in addition"
  | .raw a, .qty b =>
      if udimensionless.compatible b.unit then
        .ok (.qty ⟨a + b.value * b.unit.scale, udimensionless⟩)
      else
        .error "UnitConversionError: incompatible units in addition"

/-- Python/astropy subtraction, with the same unit rules as addition. -/
def pySub : PyVal → PyVal → Except String PyVal
  | .raw a, .raw b => .ok (.raw (a - b))
  | .qty a, .qty b =>
      if a.unit.compatible b.unit then
        .ok (.qty ⟨a.value - b.value * b.unit.scale / a.unit.scale, a.unit⟩)
      else
        .error "UnitConversionError: incompatible units in subtraction"
  | .qty a, .raw b =>
      if a.unit.compatible udimensionless then
        .ok (.qty ⟨a.value - b / a.unit.scale, a.unit⟩)
      else
        .error "UnitConversionError: incompatible units in subtraction"
  | .raw a, .qty b =>
      if udimensionless.compatible b.unit then
        .ok (.qty ⟨a - b.value * b.unit.scale, udimensionless⟩)
      else
        .error "UnitConversionError: incompatible units in subtraction"

/-- Python/astropy multiplication: total, units multiply. -/
def pyMul : PyVal → PyVal → PyVal
  | .raw a, .raw b => .raw (a * b)
  | .qty a, .qty b => .qty ⟨a.value * b.value, a.unit.mul b.unit⟩
  | .qty a, .raw b => .qty ⟨a.value * b, a.unit⟩
  | .raw a, .qty b => .qty ⟨a * b.value, b.unit⟩

/-- Python/astropy division: units divide.  Rational division by zero
yields zero here; every theorem below that exercises a division carries
the cdelt1 ≠ 0 invariant of the data model, so this case is never the
one a statement rests on. -/
def pyDiv : PyVal → PyVal → PyVal
  | .raw a, .raw b => .raw (a / b)
  | .qty a, .qty b => .qty ⟨a.value / b.value, a.unit.div b.unit⟩
  | .qty a, .raw b => .qty ⟨a.value / b, a.unit⟩
  | .raw a, .qty b => .qty ⟨a / b.value, (udimensionless.div b.unit)⟩

/-- Attribute access .unit: fails on a bare number. -/
def pyUnitOf : PyVal → Except String PhysUnit
  | .raw _ => .error "AttributeError: object has no attribute unit"
  | .qty q => .ok q.unit

/-- Attribute access .value: fails on a bare number. -/
def pyValueOf : PyVal → Except String ℚ
  | .raw _ => .error "AttributeError: object has no attribute value"
  | .qty q => .ok q.value

/-- Method call .to(target): fails on a bare number, else converts. -/
def pyTo (v : PyVal) (target : PhysUnit) : Except String PyVal :=
  match v with
  | .raw _ => .error "AttributeError: object has no attribute to"
  | .qty q =>
      match q.to target with
      | .ok r => .ok (.qty r)
      | .error e => .error e

/-- One argument of a call to a check_units-decorated function: the value
passed and whether it was passed by keyword.  The positional loop of the decorator
looks arguments up with an integer key in the string-keyed
expected_units dict, so only keyword-passed arguments can ever be
checked; this flag records which path an argument took. -/
structure Arg where
  val : PyVal
  byKeyword : Bool
  deriving DecidableEq, Repr

/-- The check performed by the check_units decorator for one declared
parameter: it fires (raises ValueError) only when the argument was passed
by keyword, carries a unit attribute, and that unit differs from the
expected one.  Positional arguments and unit-less values pass through. -/
def checkUnitViolation (expected : PhysUnit) (a : Arg) : Bool :=
  a.byKeyword &&
    (match a.val with
     | .qty q => decide (q.unit ≠ expected)
     | .raw _ => false)

/-- The LinearWaveCal instance dictionary: the four quantities stored by
the constructor plus the optional grating attribute that
define_from_grating adds after construction. -/
structure LinearWaveCal where
  crpix1_wavecal : PyVal
  crval1_wavecal : PyVal
  cdelt1_wavecal : PyVal
  naxis1_wavecal : PyVal
  grating : Option String
  deriving DecidableEq, Repr

/-- LinearWaveCal.__eq__: equality of the two instance dictionaries,
attribute by attribute with Python ==; a dictionary holding the grating
key is never equal to one without it. -/
def LinearWaveCal.instanceEq (a b : LinearWaveCal) : Bool :=
  pyEq a.crpix1_wavecal b.crpix1_wavecal &&
  pyEq a.crval1_wavecal b.crval1_wavecal &&
  pyEq a.cdelt1_wavecal b.cdelt1_wavecal &&
  pyEq a.naxis1_wavecal b.naxis1_wavecal &&
  a.grating == b.grating

/-- The check_units-decorated LinearWaveCal.__init__: the decorator
examines the declared parameters in declaration order and raises at the
first keyword-passed argument whose unit differs from the declared one;
otherwise the four values are stored unchanged (no conversion, no
validation of positional or unit-less values). -/
def LinearWaveCal.init (crpix1 crval1 cdelt1 naxis1 : Arg) :
    Except String LinearWaveCal :=
  if checkUnitViolation upix crpix1 then
    .error "Expected unit pix for argument crpix1_wavecal"
  else if checkUnitViolation umicrometer crval1 then
    .error "Expected unit micron for argument crval1_wavecal"
  else if checkUnitViolation umicrometer_per_pix cdelt1 then
    .error "Expected unit micron / pix for argument cdelt1_wavecal"
  else if checkUnitViolation upix naxis1 then
    .error "Expected unit pix for argument naxis1_wavecal"
  else
    .ok ⟨crpix1.val, crval1.val, cdelt1.val, naxis1.val, none⟩

/-- Modelled from the spec: FRIDA_NAXIS1_HAWAII lives in fridadrp.core,
which is not among the source files; the spec only uses it as the
pixel-unit detector width, and no claim depends on its numeric value.
The HAWAII detector width is taken as 2048 pixels. -/
def FRIDA_NAXIS1_HAWAII : Quantity := ⟨2048, upix⟩

/-- Modelled from the spec: FRIDA_VALID_GRATINGS lives in fridadrp.core,
which is not among the source files.  The spec enumerates the valid set
only as (medium-K, ...); it is modelled as medium-K together with a
representative further tag medium-H standing for the remaining valid
gratings, which per the source have no calibration recipe yet. -/
def FRIDA_VALID_GRATINGS : List String := ["medium-K", "medium-H"]

/-- LinearWaveCal.define_from_grating: reject gratings outside the valid
set, instantiate the medium-K recipe through the decorated constructor
(all four arguments passed by keyword), reject every other valid grating
(no recipe), and record the grating on the returned instance. -/
def LinearWaveCal.define_from_grating (grating : String) :
    Except String LinearWaveCal :=
  if grating ∈ FRIDA_VALID_GRATINGS then
    if grating = "medium-K" then
      match LinearWaveCal.init
          ⟨.qty ⟨1, upix⟩, true⟩
          ⟨.qty ⟨19344 / 10000, umicrometer⟩, true⟩
          ⟨.qty ⟨285 / 1000000, umicrometer_per_pix⟩, true⟩
          ⟨.qty FRIDA_NAXIS1_HAWAII, true⟩ with
      | .ok cal => .ok { cal with grating := some grating }
      | .error e => .error e
    else
      .error ("Invalid grating " ++ grating)
  else
    .error ("Unexpected grating name: " ++ grating)

/-- LinearWaveCal.wave_at_pixel: reject non-Quantity input; pixel-unit
input is used as a FITS pixel, dimensionless input is shifted by +1 into
the FITS convention, any other unit raises; then
wave = crval1 + (fitspixel - crpix1) * cdelt1. -/
def LinearWaveCal.wave_at_pixel (self : LinearWaveCal) (pixel : PyVal) :
    Except String PyVal :=
  match pixel with
  | .raw _ => .error "Object pixel is not a Quantity instance"
  | .qty p =>
      if p.unit = upix then
        (pySub (.qty p) self.crpix1_wavecal).bind fun t1 =>
          pyAdd self.crval1_wavecal (pyMul t1 self.cdelt1_wavecal)
      else if p.unit = udimensionless then
        (pySub (.qty ⟨p.value + 1, upix⟩) self.crpix1_wavecal).bind fun t1 =>
          pyAdd self.crval1_wavecal (pyMul t1 self.cdelt1_wavecal)
      else
        .error "Unexpected pixel units"

/-- LinearWaveCal.pixel_at_wave, including its check_units(wave=u.micrometer)
decorator (which checks wave only when passed by keyword): reject
return_units other than u.pix and u.dimensionless_unscaled, convert wave
to the unit of crval1, compute
fitspixel = (wave - crval1) / cdelt1 + crpix1, and return it as a pixel
quantity or, stripped by one, as a dimensionless quantity. -/
def LinearWaveCal.pixel_at_wave (self : LinearWaveCal) (wave : Arg)
    (return_units : PhysUnit) : Except String PyVal :=
  if checkUnitViolation umicrometer wave then
    .error "Expected unit micron for argument wave"
  else if return_units ≠ upix ∧ return_units ≠ udimensionless then
    .error "Unexpected return_units"
  else
    (pyUnitOf self.crval1_wavecal).bind fun waveunit =>
      (pyTo wave.val waveunit).bind fun w =>
        (pySub w self.crval1_wavecal).bind fun num =>
          (pyAdd (pyDiv num self.cdelt1_wavecal) self.crpix1_wavecal).bind
            fun fitspixel =>
              if return_units = upix then
                .ok fitspixel
              else
                (pyValueOf fitspixel).bind fun v =>
                  .ok (.qty ⟨v - 1, udimensionless⟩)

/-- A string-keyed Python dict with insertion order, as an association
list: updating an existing key keeps its position, a new key is appended. -/
def dictInsert (d : List (String × String)) (k v : String) :
    List (String × String) :=
  if d.any (fun p => decide (p.1 = k)) then
    d.map (fun p => if p.1 = k then (k, v) else p)
  else
    d ++ [(k, v)]

/-- Python dict lookup. -/
def dictGet (d : List (String × String)) (k : String) : Option String :=
  (d.find? (fun p => decide (p.1 = k))).map (fun p => p.2)

/-- One auxfiles registry entry of the remote configuration manifest for
one grating: filename and md5 hash, either of which may be null. -/
structure AuxEntry where
  filename : Option String
  md5 : Option String
  deriving DecidableEq, Repr

/-- The auxfiles section of the remote configuration manifest: the
grating-independent skycalc and EMIR-arc-delta-lines entries, and the
grating-indexed flatpix2pix and model_ifu2detector entries. -/
structure AuxConfig where
  skycalc_filename : String
  skycalc_md5 : String
  emir_arc_filename : String
  emir_arc_md5 : String
  flatpix2pix : String → AuxEntry
  model_ifu2detector : String → AuxEntry

/-- The local cache path that the pooch fetch of a registered filename
resolves to; network and hashing are outside the model, so a registered
file always resolves. -/
def fetch_path (filename : String) : String := "cache/" ++ filename

/-- define_auxiliary_files of frida_ifu_simulator.py: build the pooch
registry (filename to md5) and the filename-to-label map in source order,
exiting fatally when the flatpix2pix or model_ifu2detector entry of the grating
has a null filename or hash, then fetch every registered file and
return the label-to-local-path dictionary. -/
def define_auxiliary_files (cfg : AuxConfig) (grating : String) :
    Except String (List (String × String)) :=
  let registry_md5 := dictInsert [] cfg.skycalc_filename ("md5:" ++ cfg.skycalc_md5)
  let registry_label := dictInsert [] cfg.skycalc_filename "skycalc"
  let registry_md5 := dictInsert registry_md5 cfg.emir_arc_filename ("md5:" ++ cfg.emir_arc_md5)
  let registry_label := dictInsert registry_label cfg.emir_arc_filename "EMIR-arc-delta-lines"
  match (cfg.flatpix2pix grating).filename, (cfg.flatpix2pix grating).md5 with
  | some fn1, some md5_1 =>
      let registry_md5 := dictInsert registry_md5 fn1 ("md5:" ++ md5_1)
      let registry_label := dictInsert registry_label fn1 "flatpix2pix"
      match (cfg.model_ifu2detector grating).filename,
            (cfg.model_ifu2detector grating).md5 with
      | some fn2, some md5_2 =>
          let registry_md5 := dictInsert registry_md5 fn2 ("md5:" ++ md5_2)
          let registry_label := dictInsert registry_label fn2 "model_ifu2detector"
          .ok (registry_md5.foldl
            (fun d p =>
              match dictGet registry_label p.1 with
              | some label => dictInsert d label (fetch_path p.1)
              | none => d)
            [])
      | _, _ => .error ("Error: grating " ++ grating ++ " has not yet been defined!")
  | _, _ => .error ("Error: grating " ++ grating ++ " has not yet been defined!")

/-- The observable stages of the simulator entry point that
the temporal claims speak about. -/
inductive SimEffect where
  | fetchCalibration
  | render
  deriving DecidableEq, Repr

/-- The parsed command-line arguments of main that influence its control
flow up to the rendering call. -/
structure MainArgs where
  scene : String
  grating : String
  rnoise : ℚ
  verbose : Bool
  deriving Repr

/-- The main entry point of frida_ifu_simulator.py after argument
parsing, as a trace of stage effects together with its outcome: the
bare-invocation usage exit, then the readout-noise validation, then the
auxiliary-file resolution (the calibration fetch), then the wavelength
calibration for the grating, then the rendering call.  The wcs
construction and ifu_simulator are outside the source files and are
modelled from the spec as an always-succeeding rendering stage. -/
def main_run (cfg : AuxConfig) (argv_len : Nat) (args : MainArgs) :
    List SimEffect × Except String Unit :=
  if argv_len = 1 then
    ([], .error "SystemExit: usage")
  else if args.rnoise < 0 then
    ([], .error ("Invalid readout noise value: " ++ toString args.rnoise))
  else
    match define_auxiliary_files cfg args.grating with
    | .error e => ([SimEffect.fetchCalibration], .error e)
    | .ok _ =>
        match LinearWaveCal.define_from_grating args.grating with
        | .error e => ([SimEffect.fetchCalibration], .error e)
        | .ok _ => ([SimEffect.fetchCalibration, SimEffect.render], .ok ())

/-- The medium-K calibration instance exactly as define_from_grating
builds it (four decorator-checked quantities plus the grating tag). -/
def calMediumK : LinearWaveCal :=
  ⟨.qty ⟨1, upix⟩, .qty ⟨19344 / 10000, umicrometer⟩,
   .qty ⟨285 / 1000000, umicrometer_per_pix⟩, .qty FRIDA_NAXIS1_HAWAII,
   some "medium-K"⟩

/-- C1: for every LinearWaveCal instance whose attributes carry the
declared units and whose cdelt1 is nonzero, pixel_at_wave inverts
wave_at_pixel exactly, both in the 1-indexed pixel-unit convention and
in the 0-indexed dimensionless convention, when the input unit and
return_units select the same convention. -/
theorem wavecal_roundtrip (cal : LinearWaveCal) (a b c d : ℚ)
    (h1 : cal.crpix1_wavecal = .qty ⟨a, upix⟩)
    (h2 : cal.crval1_wavecal = .qty ⟨b, umicrometer⟩)
    (h3 : cal.cdelt1_wavecal = .qty ⟨c, umicrometer_per_pix⟩)
    (h4 : cal.naxis1_wavecal = .qty ⟨d, upix⟩)
    (hc : c ≠ 0) (p : ℚ) :
    (cal.wave_at_pixel (.qty ⟨p, upix⟩)).bind
        (fun w => cal.pixel_at_wave ⟨w, true⟩ upix) = .ok (.qty ⟨p, upix⟩) ∧
    (cal.wave_at_pixel (.qty ⟨p, udimensionless⟩)).bind
        (fun w => cal.pixel_at_wave ⟨w, true⟩ udimensionless)
      = .ok (.qty ⟨p, udimensionless⟩) := by
  obtain ⟨q1, q2, q3, q4, g⟩ := cal
  simp only [LinearWaveCal.crpix1_wavecal] at h1
  simp only [LinearWaveCal.crval1_wavecal] at h2
  simp only [LinearWaveCal.cdelt1_wavecal] at h3
  simp only [LinearWaveCal.naxis1_wavecal] at h4
  subst h1 h2 h3 h4
  constructor
  · simp only [LinearWaveCal.wave_at_pixel, LinearWaveCal.pixel_at_wave,
      pySub, pyAdd, pyMul, pyDiv, pyTo, pyUnitOf, pyValueOf, Quantity.to,
      checkUnitViolation, upix, udimensionless, umicrometer,
      umicrometer_per_pix, unanometer, PhysUnit.compatible, PhysUnit.mul,
      PhysUnit.div, Except.bind]
    norm_num
    field_simp
  · simp only [LinearWaveCal.wave_at_pixel, LinearWaveCal.pixel_at_wave,
      pySub, pyAdd, pyMul, pyDiv, pyTo, pyUnitOf, pyValueOf, Quantity.to,
      checkUnitViolation, upix, udimensionless, umicrometer,
      umicrometer_per_pix, unanometer, PhysUnit.compatible, PhysUnit.mul,
      PhysUnit.div, Except.bind]
    norm_num
    field_simp

/-- C1 witness: the round trip at the medium-K instance and pixel
coordinate 7, with every hypothesis discharged. -/
theorem wavecal_roundtrip_witness :
    calMediumK.crpix1_wavecal = .qty ⟨1, upix⟩ ∧
    calMediumK.crval1_wavecal = .qty ⟨19344 / 10000, umicrometer⟩ ∧
    calMediumK.cdelt1_wavecal = .qty ⟨285 / 1000000, umicrometer_per_pix⟩ ∧
    calMediumK.naxis1_wavecal = .qty ⟨2048, upix⟩ ∧
    (285 / 1000000 : ℚ) ≠ 0 ∧
    ((calMediumK.wave_at_pixel (.qty ⟨7, upix⟩)).bind
        (fun w => calMediumK.pixel_at_wave ⟨w, true⟩ upix)
      = .ok (.qty ⟨7, upix⟩) ∧
    (calMediumK.wave_at_pixel (.qty ⟨7, udimensionless⟩)).bind
        (fun w => calMediumK.pixel_at_wave ⟨w, true⟩ udimensionless)
      = .ok (.qty ⟨7, udimensionless⟩)) :=
  ⟨rfl, rfl, rfl, rfl, by norm_num,
   wavecal_roundtrip calMediumK 1 (19344 / 10000) (285 / 1000000) 2048
     rfl rfl rfl rfl (by norm_num) 7⟩

/-- A LinearWaveCal constructed directly through the decorated
constructor with the same four quantities as the medium-K recipe; the
instance dictionary has no grating key. -/
def calDirectK : LinearWaveCal :=
  ⟨.qty ⟨1, upix⟩, .qty ⟨19344 / 10000, umicrometer⟩,
   .qty ⟨285 / 1000000, umicrometer_per_pix⟩, .qty FRIDA_NAXIS1_HAWAII, none⟩

/-- C4: the medium-K recipe yields crpix1 = 1 pix, crval1 = 1.9344 um,
cdelt1 = 0.000285 um/pix, wave_at_pixel(1 pix) = 1.9344 um and
pixel_at_wave(1.9344 um, return_units=pix) = 1.0 pix. -/
theorem mediumK_concrete_scenario :
    LinearWaveCal.define_from_grating "medium-K" = .ok calMediumK ∧
    calMediumK.crpix1_wavecal = .qty ⟨1, upix⟩ ∧
    calMediumK.crval1_wavecal = .qty ⟨19344 / 10000, umicrometer⟩ ∧
    calMediumK.cdelt1_wavecal = .qty ⟨285 / 1000000, umicrometer_per_pix⟩ ∧
    calMediumK.wave_at_pixel (.qty ⟨1, upix⟩)
      = .ok (.qty ⟨19344 / 10000, umicrometer⟩) ∧
    calMediumK.pixel_at_wave ⟨.qty ⟨19344 / 10000, umicrometer⟩, true⟩ upix
      = .ok (.qty ⟨1, upix⟩) := by
  refine ⟨?_, rfl, rfl, rfl, ?_, ?_⟩ <;>
  norm_num [LinearWaveCal.define_from_grating, LinearWaveCal.init,
    LinearWaveCal.wave_at_pixel, LinearWaveCal.pixel_at_wave,
    LinearWaveCal.instanceEq, checkUnitViolation, FRIDA_VALID_GRATINGS,
    FRIDA_NAXIS1_HAWAII, calMediumK, calDirectK, pyEq, Quantity.qeq, pySub,
    pyAdd, pyMul, pyDiv, pyTo, pyUnitOf, pyValueOf, Quantity.to,
    PhysUnit.compatible, PhysUnit.mul, PhysUnit.div, upix, udimensionless,
    umicrometer, umicrometer_per_pix, Except.bind]

/-- C2 counterexample: the instance built by define_from_grating for
medium-K and the directly constructed instance agree on all four
defining quantities, yet __eq__ returns False because the first
instance dictionary carries the extra grating attribute. -/
theorem instanceEq_grating_attribute_counterexample :
    LinearWaveCal.init ⟨.qty ⟨1, upix⟩, true⟩
        ⟨.qty ⟨19344 / 10000, umicrometer⟩, true⟩
        ⟨.qty ⟨285 / 1000000, umicrometer_per_pix⟩, true⟩
        ⟨.qty FRIDA_NAXIS1_HAWAII, true⟩ = .ok calDirectK ∧
    LinearWaveCal.define_from_grating "medium-K" = .ok calMediumK ∧
    pyEq calMediumK.crpix1_wavecal calDirectK.crpix1_wavecal = true ∧
    pyEq calMediumK.crval1_wavecal calDirectK.crval1_wavecal = true ∧
    pyEq calMediumK.cdelt1_wavecal calDirectK.cdelt1_wavecal = true ∧
    pyEq calMediumK.naxis1_wavecal calDirectK.naxis1_wavecal = true ∧
    LinearWaveCal.instanceEq calMediumK calDirectK = false := by
  refine ⟨?_, ?_, ?_, ?_, ?_, ?_, ?_⟩ <;>
  norm_num [LinearWaveCal.define_from_grating, LinearWaveCal.init,
    LinearWaveCal.wave_at_pixel, LinearWaveCal.pixel_at_wave,
    LinearWaveCal.instanceEq, checkUnitViolation, FRIDA_VALID_GRATINGS,
    FRIDA_NAXIS1_HAWAII, calMediumK, calDirectK, pyEq, Quantity.qeq, pySub,
    pyAdd, pyMul, pyDiv, pyTo, pyUnitOf, pyValueOf, Quantity.to,
    PhysUnit.compatible, PhysUnit.mul, PhysUnit.div, upix, udimensionless,
    umicrometer, umicrometer_per_pix, Except.bind]

/-- C2 amended: __eq__ is instance-dictionary equality, so two instances
are equal iff the four defining quantities are equal under astropy
quantity comparison and their optional grating attributes coincide; in
particular the instance define_from_grating returns (which carries the
grating attribute) is never equal to one built directly through the
constructor (which does not), whatever quantities either holds. -/
theorem instanceEq_characterization :
    (∀ x y : LinearWaveCal,
      LinearWaveCal.instanceEq x y = true ↔
        (pyEq x.crpix1_wavecal y.crpix1_wavecal = true ∧
         pyEq x.crval1_wavecal y.crval1_wavecal = true ∧
         pyEq x.cdelt1_wavecal y.cdelt1_wavecal = true ∧
         pyEq x.naxis1_wavecal y.naxis1_wavecal = true ∧
         x.grating = y.grating)) ∧
    (∀ g : String, ∀ cal cal' : LinearWaveCal, ∀ a1 a2 a3 a4 : Arg,
      LinearWaveCal.define_from_grating g = .ok cal →
      LinearWaveCal.init a1 a2 a3 a4 = .ok cal' →
      LinearWaveCal.instanceEq cal cal' = false) := by
  constructor
  · intro x y
    simp [LinearWaveCal.instanceEq, and_assoc]
  · intro g cal cal' a1 a2 a3 a4 hcal hcal'
    have hg : cal.grating = some g := by
      unfold LinearWaveCal.define_from_grating at hcal
      split at hcal
      · split at hcal
        · split at hcal
          · simp only [Except.ok.injEq] at hcal
            rw [← hcal]
          · exact absurd hcal (by simp)
        · exact absurd hcal (by simp)
      · exact absurd hcal (by simp)
    have hg' : cal'.grating = none := by
      unfold LinearWaveCal.init at hcal'
      split_ifs at hcal' <;> simp only [Except.ok.injEq] at hcal'
      rw [← hcal']
    simp [LinearWaveCal.instanceEq, hg, hg']

/-- C2 amended witness: the characterization applied to the concrete
medium-K instance and its direct-constructed twin. -/
theorem instanceEq_characterization_witness :
    LinearWaveCal.define_from_grating "medium-K" = .ok calMediumK ∧
    LinearWaveCal.init ⟨.qty ⟨1, upix⟩, true⟩
        ⟨.qty ⟨19344 / 10000, umicrometer⟩, true⟩
        ⟨.qty ⟨285 / 1000000, umicrometer_per_pix⟩, true⟩
        ⟨.qty FRIDA_NAXIS1_HAWAII, true⟩ = .ok calDirectK ∧
    LinearWaveCal.instanceEq calMediumK calDirectK = false :=
  ⟨by norm_num [LinearWaveCal.define_from_grating, LinearWaveCal.init,
       LinearWaveCal.wave_at_pixel, LinearWaveCal.pixel_at_wave,
       LinearWaveCal.instanceEq, checkUnitViolation, FRIDA_VALID_GRATINGS,
       FRIDA_NAXIS1_HAWAII, calMediumK, calDirectK, pyEq, Quantity.qeq, pySub,
       pyAdd, pyMul, pyDiv, pyTo, pyUnitOf, pyValueOf, Quantity.to,
       PhysUnit.compatible, PhysUnit.mul, PhysUnit.div, upix, udimensionless,
       umicrometer, umicrometer_per_pix, Except.bind],
   by norm_num [LinearWaveCal.define_from_grating, LinearWaveCal.init,
       LinearWaveCal.wave_at_pixel, LinearWaveCal.pixel_at_wave,
       LinearWaveCal.instanceEq, checkUnitViolation, FRIDA_VALID_GRATINGS,
       FRIDA_NAXIS1_HAWAII, calMediumK, calDirectK, pyEq, Quantity.qeq, pySub,
       pyAdd, pyMul, pyDiv, pyTo, pyUnitOf, pyValueOf, Quantity.to,
       PhysUnit.compatible, PhysUnit.mul, PhysUnit.div, upix, udimensionless,
       umicrometer, umicrometer_per_pix, Except.bind],
   instanceEq_characterization.2 "medium-K" calMediumK calDirectK
     ⟨.qty ⟨1, upix⟩, true⟩ ⟨.qty ⟨19344 / 10000, umicrometer⟩, true⟩
     ⟨.qty ⟨285 / 1000000, umicrometer_per_pix⟩, true⟩
     ⟨.qty FRIDA_NAXIS1_HAWAII, true⟩
     (by norm_num [LinearWaveCal.define_from_grating, LinearWaveCal.init,
       LinearWaveCal.wave_at_pixel, LinearWaveCal.pixel_at_wave,
       LinearWaveCal.instanceEq, checkUnitViolation, FRIDA_VALID_GRATINGS,
       FRIDA_NAXIS1_HAWAII, calMediumK, calDirectK, pyEq, Quantity.qeq, pySub,
       pyAdd, pyMul, pyDiv, pyTo, pyUnitOf, pyValueOf, Quantity.to,
       PhysUnit.compatible, PhysUnit.mul, PhysUnit.div, upix, udimensionless,
       umicrometer, umicrometer_per_pix, Except.bind])
     (by norm_num [LinearWaveCal.define_from_grating, LinearWaveCal.init,
       LinearWaveCal.wave_at_pixel, LinearWaveCal.pixel_at_wave,
       LinearWaveCal.instanceEq, checkUnitViolation, FRIDA_VALID_GRATINGS,
       FRIDA_NAXIS1_HAWAII, calMediumK, calDirectK, pyEq, Quantity.qeq, pySub,
       pyAdd, pyMul, pyDiv, pyTo, pyUnitOf, pyValueOf, Quantity.to,
       PhysUnit.compatible, PhysUnit.mul, PhysUnit.div, upix, udimensionless,
       umicrometer, umicrometer_per_pix, Except.bind])⟩

/-- C3 counterexample: the decorated constructor silently accepts a
crpix1_wavecal passed by keyword with no unit information at all, and
silently accepts a crpix1_wavecal passed positionally with a micrometer
unit instead of the declared pixel unit; neither call errors and both
store the offending value unchanged. -/
theorem check_units_gap_counterexample :
    LinearWaveCal.init ⟨.raw 1, true⟩
        ⟨.qty ⟨19344 / 10000, umicrometer⟩, true⟩
        ⟨.qty ⟨285 / 1000000, umicrometer_per_pix⟩, true⟩
        ⟨.qty FRIDA_NAXIS1_HAWAII, true⟩
      = .ok ⟨.raw 1, .qty ⟨19344 / 10000, umicrometer⟩,
             .qty ⟨285 / 1000000, umicrometer_per_pix⟩,
             .qty FRIDA_NAXIS1_HAWAII, none⟩ ∧
    LinearWaveCal.init ⟨.qty ⟨1, umicrometer⟩, false⟩
        ⟨.qty ⟨19344 / 10000, umicrometer⟩, true⟩
        ⟨.qty ⟨285 / 1000000, umicrometer_per_pix⟩, true⟩
        ⟨.qty FRIDA_NAXIS1_HAWAII, true⟩
      = .ok ⟨.qty ⟨1, umicrometer⟩, .qty ⟨19344 / 10000, umicrometer⟩,
             .qty ⟨285 / 1000000, umicrometer_per_pix⟩,
             .qty FRIDA_NAXIS1_HAWAII, none⟩ := by
  refine ⟨?_, ?_⟩ <;>
  norm_num [LinearWaveCal.define_from_grating, LinearWaveCal.init,
    LinearWaveCal.wave_at_pixel, LinearWaveCal.pixel_at_wave,
    LinearWaveCal.instanceEq, checkUnitViolation, FRIDA_VALID_GRATINGS,
    FRIDA_NAXIS1_HAWAII, calMediumK, calDirectK, pyEq, Quantity.qeq, pySub,
    pyAdd, pyMul, pyDiv, pyTo, pyUnitOf, pyValueOf, Quantity.to,
    PhysUnit.compatible, PhysUnit.mul, PhysUnit.div, upix, udimensionless,
    umicrometer, umicrometer_per_pix, Except.bind]

/-- C3 amended: the check_units decorator validates only keyword-passed
arguments that carry a unit attribute.  The constructor raises exactly
when some keyword-passed quantity argument bears a unit other than the
declared one; positional arguments and unit-less values are accepted
unchecked and stored unchanged. -/
theorem check_units_keyword_only (a1 a2 a3 a4 : Arg) :
    (LinearWaveCal.init a1 a2 a3 a4
        = .ok ⟨a1.val, a2.val, a3.val, a4.val, none⟩ ↔
      (checkUnitViolation upix a1 = false ∧
       checkUnitViolation umicrometer a2 = false ∧
       checkUnitViolation umicrometer_per_pix a3 = false ∧
       checkUnitViolation upix a4 = false)) ∧
    (∀ u : PhysUnit, ∀ v : PyVal, checkUnitViolation u ⟨v, false⟩ = false) ∧
    (∀ u : PhysUnit, ∀ r : ℚ, ∀ k : Bool, checkUnitViolation u ⟨.raw r, k⟩ = false) := by
  refine ⟨?_, ?_, ?_⟩
  · unfold LinearWaveCal.init
    split_ifs with h1 h2 h3 h4 <;> simp_all
  · intro u v
    simp [checkUnitViolation]
  · intro u r k
    simp [checkUnitViolation]

/-- C3 amended witness: the characterization applied to the fully
keyword-passed, correctly-united medium-K argument list. -/
theorem check_units_keyword_only_witness :
    (LinearWaveCal.init ⟨.qty ⟨1, upix⟩, true⟩
        ⟨.qty ⟨19344 / 10000, umicrometer⟩, true⟩
        ⟨.qty ⟨285 / 1000000, umicrometer_per_pix⟩, true⟩
        ⟨.qty FRIDA_NAXIS1_HAWAII, true⟩
      = .ok ⟨.qty ⟨1, upix⟩, .qty ⟨19344 / 10000, umicrometer⟩,
             .qty ⟨285 / 1000000, umicrometer_per_pix⟩,
             .qty FRIDA_NAXIS1_HAWAII, none⟩ ↔
      (checkUnitViolation upix ⟨.qty ⟨1, upix⟩, true⟩ = false ∧
       checkUnitViolation umicrometer ⟨.qty ⟨19344 / 10000, umicrometer⟩, true⟩ = false ∧
       checkUnitViolation umicrometer_per_pix
         ⟨.qty ⟨285 / 1000000, umicrometer_per_pix⟩, true⟩ = false ∧
       checkUnitViolation upix ⟨.qty FRIDA_NAXIS1_HAWAII, true⟩ = false)) ∧
    (∀ u : PhysUnit, ∀ v : PyVal, checkUnitViolation u ⟨v, false⟩ = false) ∧
    (∀ u : PhysUnit, ∀ r : ℚ, ∀ k : Bool, checkUnitViolation u ⟨.raw r, k⟩ = false) :=
  check_units_keyword_only ⟨.qty ⟨1, upix⟩, true⟩
    ⟨.qty ⟨19344 / 10000, umicrometer⟩, true⟩
    ⟨.qty ⟨285 / 1000000, umicrometer_per_pix⟩, true⟩
    ⟨.qty FRIDA_NAXIS1_HAWAII, true⟩

/-- C5: define_from_grating raises a ValueError naming the offending
grating for every string outside FRIDA_VALID_GRATINGS, raises a
ValueError naming the grating for every valid grating without a
calibration recipe (all but medium-K), and returns an instance exactly
for medium-K, the only grating with a recipe. -/
theorem define_from_grating_cases (g : String) :
    (g ∉ FRIDA_VALID_GRATINGS →
      LinearWaveCal.define_from_grating g
        = .error ("Unexpected grating name: " ++ g)) ∧
    (g ∈ FRIDA_VALID_GRATINGS → g ≠ "medium-K" →
      LinearWaveCal.define_from_grating g
        = .error ("Invalid grating " ++ g)) ∧
    (g = "medium-K" →
      LinearWaveCal.define_from_grating g = .ok calMediumK) := by
  refine ⟨?_, ?_, ?_⟩
  · intro h
    simp [LinearWaveCal.define_from_grating, h]
  · intro h hne
    simp [LinearWaveCal.define_from_grating, h, hne]
  · intro h
    subst h
    norm_num [LinearWaveCal.define_from_grating, LinearWaveCal.init,
      checkUnitViolation, FRIDA_VALID_GRATINGS, FRIDA_NAXIS1_HAWAII,
      calMediumK, upix, udimensionless, umicrometer, umicrometer_per_pix]

/-- C5 witness: the three branches at the concrete gratings low-J (not
valid), medium-H (valid, no recipe) and medium-K (the recipe). -/
theorem define_from_grating_cases_witness :
    ("low-J" ∉ FRIDA_VALID_GRATINGS ∧
      LinearWaveCal.define_from_grating "low-J"
        = .error ("Unexpected grating name: " ++ "low-J")) ∧
    ("medium-H" ∈ FRIDA_VALID_GRATINGS ∧ "medium-H" ≠ "medium-K" ∧
      LinearWaveCal.define_from_grating "medium-H"
        = .error ("Invalid grating " ++ "medium-H")) ∧
    LinearWaveCal.define_from_grating "medium-K" = .ok calMediumK :=
  ⟨⟨by decide, (define_from_grating_cases "low-J").1 (by decide)⟩,
   ⟨by decide, by decide,
    (define_from_grating_cases "medium-H").2.1 (by decide) (by decide)⟩,
   (define_from_grating_cases "medium-K").2.2 rfl⟩

/-- C6: wave_at_pixel errors on every input that is not a Quantity and
on every Quantity whose unit is neither u.pix nor
u.dimensionless_unscaled; for those two units it returns the affine
wavelength crval1 + (fitspixel - crpix1) * cdelt1 in micrometers, where
fitspixel is the input for pixel-unit input and the input shifted by +1
for dimensionless input. -/
theorem wave_at_pixel_unit_discipline (cal : LinearWaveCal) (a b c : ℚ)
    (h1 : cal.crpix1_wavecal = .qty ⟨a, upix⟩)
    (h2 : cal.crval1_wavecal = .qty ⟨b, umicrometer⟩)
    (h3 : cal.cdelt1_wavecal = .qty ⟨c, umicrometer_per_pix⟩) :
    (∀ r : ℚ, cal.wave_at_pixel (.raw r)
      = .error "Object pixel is not a Quantity instance") ∧
    (∀ q : Quantity, q.unit ≠ upix → q.unit ≠ udimensionless →
      cal.wave_at_pixel (.qty q) = .error "Unexpected pixel units") ∧
    (∀ q : Quantity, q.unit = upix →
      cal.wave_at_pixel (.qty q)
        = .ok (.qty ⟨b + (q.value - a) * c, umicrometer⟩)) ∧
    (∀ q : Quantity, q.unit = udimensionless →
      cal.wave_at_pixel (.qty q)
        = .ok (.qty ⟨b + (q.value + 1 - a) * c, umicrometer⟩)) := by
  obtain ⟨q1, q2, q3, q4, g⟩ := cal
  simp only [LinearWaveCal.crpix1_wavecal] at h1
  simp only [LinearWaveCal.crval1_wavecal] at h2
  simp only [LinearWaveCal.cdelt1_wavecal] at h3
  subst h1 h2 h3
  refine ⟨fun r => rfl, ?_, ?_, ?_⟩
  · intro q hq1 hq2
    simp [LinearWaveCal.wave_at_pixel, hq1, hq2]
  · intro q hq
    obtain ⟨v, u⟩ := q
    simp only [Quantity.unit] at hq
    subst hq
    simp only [LinearWaveCal.wave_at_pixel, pySub, pyAdd, pyMul, upix,
      udimensionless, umicrometer, umicrometer_per_pix, PhysUnit.compatible,
      PhysUnit.mul, PhysUnit.div, Except.bind]
    norm_num
  · intro q hq
    obtain ⟨v, u⟩ := q
    simp only [Quantity.unit] at hq
    subst hq
    simp only [LinearWaveCal.wave_at_pixel, pySub, pyAdd, pyMul, upix,
      udimensionless, umicrometer, umicrometer_per_pix, PhysUnit.compatible,
      PhysUnit.mul, PhysUnit.div, Except.bind]
    norm_num

/-- C6 witness: the three behaviours at the medium-K instance: a bare
number, a micrometer-united pixel argument, and the two accepted units. -/
theorem wave_at_pixel_unit_discipline_witness :
    calMediumK.crpix1_wavecal = .qty ⟨1, upix⟩ ∧
    (calMediumK.wave_at_pixel (.raw 3)
      = .error "Object pixel is not a Quantity instance" ∧
    calMediumK.wave_at_pixel (.qty ⟨3, umicrometer⟩)
      = .error "Unexpected pixel units" ∧
    calMediumK.wave_at_pixel (.qty ⟨3, upix⟩)
      = .ok (.qty ⟨19344 / 10000 + (3 - 1) * (285 / 1000000), umicrometer⟩) ∧
    calMediumK.wave_at_pixel (.qty ⟨3, udimensionless⟩)
      = .ok (.qty ⟨19344 / 10000 + (3 + 1 - 1) * (285 / 1000000), umicrometer⟩)) :=
  ⟨rfl,
   (wave_at_pixel_unit_discipline calMediumK 1 (19344 / 10000) (285 / 1000000)
      rfl rfl rfl).1 3,
   (wave_at_pixel_unit_discipline calMediumK 1 (19344 / 10000) (285 / 1000000)
      rfl rfl rfl).2.1 ⟨3, umicrometer⟩ (by norm_num [umicrometer, upix])
     (by norm_num [umicrometer, udimensionless]),
   (wave_at_pixel_unit_discipline calMediumK 1 (19344 / 10000) (285 / 1000000)
      rfl rfl rfl).2.2.1 ⟨3, upix⟩ rfl,
   (wave_at_pixel_unit_discipline calMediumK 1 (19344 / 10000) (285 / 1000000)
      rfl rfl rfl).2.2.2 ⟨3, udimensionless⟩ rfl⟩

/-- Units in a micrometer quantity convert to micrometers. -/
@[simp] theorem umicrometer_compatible_self :
    umicrometer.compatible umicrometer = true := by
  norm_num [umicrometer, PhysUnit.compatible]

/-- Pixel units are compatible with themselves. -/
@[simp] theorem upix_compatible_self : upix.compatible upix = true := by
  norm_num [upix, PhysUnit.compatible]

/-- Dividing a micrometer quantity by a micrometer-per-pixel quantity
leaves a plain pixel unit. -/
@[simp] theorem div_micro_per_pix :
    umicrometer.div umicrometer_per_pix = upix := by
  norm_num [umicrometer, umicrometer_per_pix, upix, PhysUnit.div]

/-- Converting micrometers to micrometers does not rescale. -/
@[simp] theorem umicrometer_scale_ratio :
    umicrometer.scale / umicrometer.scale = 1 := by
  norm_num [umicrometer]

/-- The pixel unit has unit scale. -/
@[simp] theorem upix_scale : upix.scale = 1 := rfl

/-- The dimensionless unit differs from the pixel unit. -/
@[simp] theorem udim_ne_upix : ¬ (udimensionless = upix) := by
  norm_num [udimensionless, upix]

/-- The pixel unit differs from the dimensionless unit. -/
@[simp] theorem upix_ne_udim : ¬ (upix = udimensionless) := by
  norm_num [udimensionless, upix]

/-- C7: pixel_at_wave errors for every return_units other than u.pix and
u.dimensionless_unscaled; for every wavelength input whatsoever the
dimensionless call returns exactly the value of the pixel-convention result
minus one (and fails exactly when the pixel call fails); and every
successful pixel-convention result is a pixel-unit quantity. -/
theorem pixel_at_wave_return_units (cal : LinearWaveCal) (a b c : ℚ)
    (h1 : cal.crpix1_wavecal = .qty ⟨a, upix⟩)
    (h2 : cal.crval1_wavecal = .qty ⟨b, umicrometer⟩)
    (h3 : cal.cdelt1_wavecal = .qty ⟨c, umicrometer_per_pix⟩) :
    (∀ wave : Arg, ∀ ru : PhysUnit, ru ≠ upix → ru ≠ udimensionless →
      ∃ e, cal.pixel_at_wave wave ru = .error e) ∧
    (∀ wave : Arg,
      cal.pixel_at_wave wave udimensionless
        = (cal.pixel_at_wave wave upix).bind
            (fun p => (pyValueOf p).bind
              (fun v => .ok (.qty ⟨v - 1, udimensionless⟩)))) ∧
    (∀ wave : Arg, ∀ p : PyVal,
      cal.pixel_at_wave wave upix = .ok p → ∃ v : ℚ, p = .qty ⟨v, upix⟩) := by
  obtain ⟨q1, q2, q3, q4, g⟩ := cal
  simp only [LinearWaveCal.crpix1_wavecal] at h1
  simp only [LinearWaveCal.crval1_wavecal] at h2
  simp only [LinearWaveCal.cdelt1_wavecal] at h3
  subst h1 h2 h3
  refine ⟨?_, ?_, ?_⟩
  · intro wave ru hru1 hru2
    by_cases hv : checkUnitViolation umicrometer wave
    · exact ⟨"Expected unit micron for argument wave",
        by simp [LinearWaveCal.pixel_at_wave, hv]⟩
    · exact ⟨"Unexpected return_units",
        by simp [LinearWaveCal.pixel_at_wave, hv, hru1, hru2]⟩
  · intro wave
    obtain ⟨wv, kw⟩ := wave
    by_cases hv : checkUnitViolation umicrometer ⟨wv, kw⟩
    · simp [LinearWaveCal.pixel_at_wave, hv, Except.bind]
    · cases wv with
      | raw r =>
          simp [LinearWaveCal.pixel_at_wave, hv, pyTo, pyUnitOf, pyValueOf,
            Except.bind]
      | qty q =>
          by_cases hcomp : (q.unit.compatible umicrometer : Bool)
          · simp [LinearWaveCal.pixel_at_wave, hv, pyTo, pyUnitOf, pyValueOf,
              Quantity.to, hcomp, pySub, pyDiv, pyAdd, Except.bind]
          · simp [LinearWaveCal.pixel_at_wave, hv, pyTo, pyUnitOf, pyValueOf,
              Quantity.to, hcomp, Except.bind]
  · intro wave p hp
    obtain ⟨wv, kw⟩ := wave
    by_cases hv : checkUnitViolation umicrometer ⟨wv, kw⟩
    · simp [LinearWaveCal.pixel_at_wave, hv] at hp
    · cases wv with
      | raw r =>
          simp [LinearWaveCal.pixel_at_wave, hv, pyTo, pyUnitOf,
            Except.bind] at hp
      | qty q =>
          by_cases hcomp : (q.unit.compatible umicrometer : Bool)
          · simp [LinearWaveCal.pixel_at_wave, hv, pyTo, pyUnitOf, pyValueOf,
              Quantity.to, hcomp, pySub, pyDiv, pyAdd, Except.bind] at hp
            exact ⟨_, hp.symm⟩
          · simp [LinearWaveCal.pixel_at_wave, hv, pyTo, pyUnitOf,
              Quantity.to, hcomp, Except.bind] at hp

/-- C7 witness: at the medium-K instance and the wavelength 2 um, a
micrometer return_units errors, the dimensionless result is the pixel
result minus one, and the pixel result 13177/57 pix is a pixel
quantity. -/
theorem pixel_at_wave_return_units_witness :
    calMediumK.crpix1_wavecal = .qty ⟨1, upix⟩ ∧
    calMediumK.crval1_wavecal = .qty ⟨19344 / 10000, umicrometer⟩ ∧
    calMediumK.cdelt1_wavecal = .qty ⟨285 / 1000000, umicrometer_per_pix⟩ ∧
    umicrometer ≠ upix ∧ umicrometer ≠ udimensionless ∧
    (∃ e, calMediumK.pixel_at_wave ⟨.qty ⟨2, umicrometer⟩, true⟩ umicrometer
      = .error e) ∧
    (calMediumK.pixel_at_wave ⟨.qty ⟨2, umicrometer⟩, true⟩ udimensionless
      = (calMediumK.pixel_at_wave ⟨.qty ⟨2, umicrometer⟩, true⟩ upix).bind
          (fun p => (pyValueOf p).bind
            (fun v => .ok (.qty ⟨v - 1, udimensionless⟩)))) ∧
    calMediumK.pixel_at_wave ⟨.qty ⟨2, umicrometer⟩, true⟩ upix
      = .ok (.qty ⟨13177 / 57, upix⟩) ∧
    (∃ v : ℚ, (PyVal.qty ⟨13177 / 57, upix⟩) = .qty ⟨v, upix⟩) := by
  have hpix : calMediumK.pixel_at_wave ⟨.qty ⟨2, umicrometer⟩, true⟩ upix
      = .ok (.qty ⟨13177 / 57, upix⟩) := by
    norm_num [calMediumK, LinearWaveCal.pixel_at_wave, checkUnitViolation,
      pySub, pyAdd, pyMul, pyDiv, pyTo, pyUnitOf, pyValueOf, Quantity.to,
      PhysUnit.compatible, PhysUnit.mul, PhysUnit.div, FRIDA_NAXIS1_HAWAII,
      upix, udimensionless, umicrometer, umicrometer_per_pix, Except.bind]
  refine ⟨rfl, rfl, rfl, by norm_num [umicrometer, upix],
    by norm_num [umicrometer, udimensionless],
    (pixel_at_wave_return_units calMediumK 1 (19344 / 10000) (285 / 1000000)
        rfl rfl rfl).1 ⟨.qty ⟨2, umicrometer⟩, true⟩ umicrometer
      (by norm_num [umicrometer, upix]) (by norm_num [umicrometer, udimensionless]),
    (pixel_at_wave_return_units calMediumK 1 (19344 / 10000) (285 / 1000000)
        rfl rfl rfl).2.1 ⟨.qty ⟨2, umicrometer⟩, true⟩,
    hpix,
    (pixel_at_wave_return_units calMediumK 1 (19344 / 10000) (285 / 1000000)
        rfl rfl rfl).2.2 ⟨.qty ⟨2, umicrometer⟩, true⟩
      (.qty ⟨13177 / 57, upix⟩) hpix⟩

/-- C10: a wave argument passed positionally in any length unit is first
converted exactly to the calibration wavelength unit, so pixel_at_wave
returns the very same result as for the equivalent micrometer-valued
input, and the call succeeds for both pixel conventions. -/
theorem pixel_at_wave_unit_invariance (cal : LinearWaveCal) (a b c : ℚ)
    (h1 : cal.crpix1_wavecal = .qty ⟨a, upix⟩)
    (h2 : cal.crval1_wavecal = .qty ⟨b, umicrometer⟩)
    (h3 : cal.cdelt1_wavecal = .qty ⟨c, umicrometer_per_pix⟩)
    (lu : PhysUnit) (hlen : lu.dimLen = 1) (hpix2 : lu.dimPix = 0)
    (v : ℚ) (ru : PhysUnit) :
    (cal.pixel_at_wave ⟨.qty ⟨v, lu⟩, false⟩ ru
      = cal.pixel_at_wave
          ⟨.qty ⟨v * lu.scale / umicrometer.scale, umicrometer⟩, false⟩ ru) ∧
    (ru = upix ∨ ru = udimensionless →
      ∃ p, cal.pixel_at_wave ⟨.qty ⟨v, lu⟩, false⟩ ru = .ok p) := by
  obtain ⟨q1, q2, q3, q4, g⟩ := cal
  simp only [LinearWaveCal.crpix1_wavecal] at h1
  simp only [LinearWaveCal.crval1_wavecal] at h2
  simp only [LinearWaveCal.cdelt1_wavecal] at h3
  subst h1 h2 h3
  have hcomp : lu.compatible umicrometer = true := by
    simp [PhysUnit.compatible, hlen, hpix2, umicrometer]
  have hto : pyTo (.qty ⟨v, lu⟩) umicrometer
      = pyTo (.qty ⟨v * lu.scale / umicrometer.scale, umicrometer⟩)
          umicrometer := by
    simp [pyTo, Quantity.to, hcomp]
    norm_num [umicrometer]
  constructor
  · simp only [LinearWaveCal.pixel_at_wave]
    simp only [checkUnitViolation, Bool.false_and, Bool.false_eq_true,
      if_false, pyUnitOf, Except.bind]
    rw [hto]
  · rintro (hru | hru) <;> subst hru
    · simp [LinearWaveCal.pixel_at_wave, checkUnitViolation, pyUnitOf,
        pyTo, Quantity.to, hcomp, pySub, pyDiv, pyAdd, pyValueOf, Except.bind]
    · simp [LinearWaveCal.pixel_at_wave, checkUnitViolation, pyUnitOf,
        pyTo, Quantity.to, hcomp, pySub, pyDiv, pyAdd, pyValueOf, Except.bind]

/-- C10 witness: the nanometer input 1934.4 nm fed positionally to the
medium-K instance behaves exactly as its micrometer conversion, and the
pixel-convention call succeeds. -/
theorem pixel_at_wave_unit_invariance_witness :
    calMediumK.crpix1_wavecal = .qty ⟨1, upix⟩ ∧
    calMediumK.crval1_wavecal = .qty ⟨19344 / 10000, umicrometer⟩ ∧
    calMediumK.cdelt1_wavecal = .qty ⟨285 / 1000000, umicrometer_per_pix⟩ ∧
    unanometer.dimLen = 1 ∧ unanometer.dimPix = 0 ∧
    (calMediumK.pixel_at_wave ⟨.qty ⟨19344 / 10, unanometer⟩, false⟩ upix
      = calMediumK.pixel_at_wave
          ⟨.qty ⟨19344 / 10 * unanometer.scale / umicrometer.scale,
                 umicrometer⟩, false⟩ upix) ∧
    (∃ p, calMediumK.pixel_at_wave ⟨.qty ⟨19344 / 10, unanometer⟩, false⟩ upix
      = .ok p) :=
  ⟨rfl, rfl, rfl, rfl, rfl,
   (pixel_at_wave_unit_invariance calMediumK 1 (19344 / 10000) (285 / 1000000)
      rfl rfl rfl unanometer rfl rfl (19344 / 10) upix).1,
   (pixel_at_wave_unit_invariance calMediumK 1 (19344 / 10000) (285 / 1000000)
      rfl rfl rfl unanometer rfl rfl (19344 / 10) upix).2 (Or.inl rfl)⟩

/-- C9: define_auxiliary_files exits fatally with a message naming the
grating whenever the flatpix2pix or model_ifu2detector entry of the grating
has an undefined filename or hash; when both entries are
defined (and the four registered filenames are distinct, as in the real
manifest) it returns the dictionary mapping every required label to its
fetched local path. -/
theorem define_auxiliary_files_cases (cfg : AuxConfig) (g : String) :
    ((cfg.flatpix2pix g).filename = none ∨ (cfg.flatpix2pix g).md5 = none ∨
     (cfg.model_ifu2detector g).filename = none ∨
     (cfg.model_ifu2detector g).md5 = none →
      define_auxiliary_files cfg g
        = .error ("Error: grating " ++ g ++ " has not yet been defined!")) ∧
    (∀ fn1 m1 fn2 m2 : String,
      cfg.flatpix2pix g = ⟨some fn1, some m1⟩ →
      cfg.model_ifu2detector g = ⟨some fn2, some m2⟩ →
      cfg.skycalc_filename ≠ cfg.emir_arc_filename →
      cfg.skycalc_filename ≠ fn1 → cfg.emir_arc_filename ≠ fn1 →
      cfg.skycalc_filename ≠ fn2 → cfg.emir_arc_filename ≠ fn2 → fn1 ≠ fn2 →
      define_auxiliary_files cfg g
        = .ok [("skycalc", fetch_path cfg.skycalc_filename),
               ("EMIR-arc-delta-lines", fetch_path cfg.emir_arc_filename),
               ("flatpix2pix", fetch_path fn1),
               ("model_ifu2detector", fetch_path fn2)]) := by
  constructor
  · intro hdis
    rcases hf : cfg.flatpix2pix g with ⟨f1, m1⟩
    rcases hm : cfg.model_ifu2detector g with ⟨f2, m2⟩
    rw [hf, hm] at hdis
    simp only [define_auxiliary_files, hf, hm]
    rcases f1 with _ | f1 <;> rcases m1 with _ | m1 <;>
      rcases f2 with _ | f2 <;> rcases m2 with _ | m2 <;> simp_all
  · intro fn1 m1 fn2 m2 hf hm hne1 hne2 hne3 hne4 hne5 hne6
    simp only [define_auxiliary_files, hf, hm]
    simp [dictInsert, dictGet, fetch_path, hne1, hne2, hne3, hne4, hne5, hne6]

/-- A concrete manifest for the witnesses: distinct filenames, with the
grating-indexed entries defined exactly for medium-K. -/
def cfgExample : AuxConfig :=
  ⟨"skycalc.fits", "aaa", "emir.fits", "bbb",
   fun g => if g = "medium-K" then ⟨some "flat.fits", some "ccc"⟩
            else ⟨none, none⟩,
   fun g => if g = "medium-K" then ⟨some "model.json", some "ddd"⟩
            else ⟨none, none⟩⟩

/-- C9 witness: with the concrete manifest, the undefined medium-H
entries produce the fatal message naming medium-H, and the defined
medium-K entries produce the full label-to-path dictionary. -/
theorem define_auxiliary_files_cases_witness :
    (cfgExample.flatpix2pix "medium-H").filename = none ∧
    define_auxiliary_files cfgExample "medium-H"
      = .error ("Error: grating " ++ "medium-H" ++ " has not yet been defined!") ∧
    cfgExample.flatpix2pix "medium-K" = ⟨some "flat.fits", some "ccc"⟩ ∧
    cfgExample.model_ifu2detector "medium-K" = ⟨some "model.json", some "ddd"⟩ ∧
    define_auxiliary_files cfgExample "medium-K"
      = .ok [("skycalc", fetch_path "skycalc.fits"),
             ("EMIR-arc-delta-lines", fetch_path "emir.fits"),
             ("flatpix2pix", fetch_path "flat.fits"),
             ("model_ifu2detector", fetch_path "model.json")] :=
  ⟨by simp [cfgExample],
   (define_auxiliary_files_cases cfgExample "medium-H").1
     (Or.inl (by simp [cfgExample])),
   by simp [cfgExample], by simp [cfgExample],
   (define_auxiliary_files_cases cfgExample "medium-K").2
     "flat.fits" "ccc" "model.json" "ddd"
     (by simp [cfgExample]) (by simp [cfgExample])
     (by simp [cfgExample]) (by simp [cfgExample]) (by simp [cfgExample])
     (by simp [cfgExample]) (by simp [cfgExample]) (by simp)⟩

/-- C8: when the parsed readout noise is negative, main raises the
readout-noise ValueError with an empty effect trace: neither the
calibration fetch (define_auxiliary_files) nor the rendering
(ifu_simulator) is ever invoked. -/
theorem rnoise_rejected_before_fetch (cfg : AuxConfig) (argv_len : Nat)
    (args : MainArgs) (hargv : argv_len ≠ 1) (hr : args.rnoise < 0) :
    main_run cfg argv_len args
      = ([], .error ("Invalid readout noise value: " ++ toString args.rnoise)) ∧
    SimEffect.fetchCalibration ∉ (main_run cfg argv_len args).1 ∧
    SimEffect.render ∉ (main_run cfg argv_len args).1 := by
  have h : main_run cfg argv_len args
      = ([], .error ("Invalid readout noise value: " ++ toString args.rnoise)) := by
    simp [main_run, hargv, hr]
  refine ⟨h, ?_, ?_⟩ <;> rw [h] <;> simp

/-- C8 witness: a run with readout noise -5 on the concrete manifest is
rejected with an empty effect trace. -/
theorem rnoise_rejected_before_fetch_witness :
    (3 : Nat) ≠ 1 ∧ ((-5 : ℚ) < 0) ∧
    (main_run cfgExample 3 ⟨"scene.yaml", "medium-K", -5, false⟩
      = ([], .error ("Invalid readout noise value: " ++ toString (-5 : ℚ))) ∧
     SimEffect.fetchCalibration
       ∉ (main_run cfgExample 3 ⟨"scene.yaml", "medium-K", -5, false⟩).1 ∧
     SimEffect.render
       ∉ (main_run cfgExample 3 ⟨"scene.yaml", "medium-K", -5, false⟩).1) :=
  ⟨by norm_num, by norm_num,
   rnoise_rejected_before_fetch cfgExample 3
     ⟨"scene.yaml", "medium-K", -5, false⟩ (by norm_num) (by norm_num)⟩

end Fridadrp
